import Mathlib

/-!
Verification of the process lifecycle controller and helper functions of
`serafin-labs/gulp-tasks` (src/index.js).

The `runner` module keeps a single mutable variable `process` (the in-memory
worker handle) and a PID file on disk.  We embed that state as `RunnerState`
and embed the `start` and `restart` gulp tasks as state transformers that
also emit a trace of primitive effects (`Action`), recording spawns, signals,
file writes, console output and observed close events in program order.
Event-driven callbacks (`process.on('close')`, the kill helper's
`stdout.on('close')`, `process.on('exit')`) are embedded as explicit
functions; the big-step `restart` inlines them at the point where the
corresponding close event is observed, marked in the trace by
`Action.closeObserved`.
-/

namespace GulpTasks

/-- In-memory handle to a spawned child process: its OS pid, its
asynchronously observed exit code (`none` while still running, mirroring
JavaScript `process.exitCode == null`), and whether the handle was produced by
`spawn('kill', ...)` (a termination-signal helper) rather than
`spawn('node', ...)` (a worker). -/
structure Handle where
  pid : Nat
  exitCode : Option Int
  isKillHelper : Bool
deriving Repr, DecidableEq

/-- State of the `runner` closure in src/index.js: the shared mutable
`process` variable (line 115) and the PID file.  `pidFile = none` models the
file being missing or failing the `fs.access(pidFile, R_OK | W_OK)` check;
`pidFile = some p` models an accessible file whose content is the pid `p`. -/
structure RunnerState where
  process : Option Handle
  pidFile : Option Nat
deriving Repr, DecidableEq

/-- Configuration captured by the `runner(gulp, command, buildFile, pidFile,
debug)` closure: the worker command and the debug flag. -/
structure Config where
  debug : Bool
  command : String
deriving Repr, DecidableEq

/-- Primitive observable effects emitted by the tasks, in program order. -/
inductive Action where
  | spawnNode (args : List String) (pid : Nat)
  | spawnKill (target : Nat) (helperPid : Nat)
  | killSignal (pid : Nat)
  | closeObserved (pid : Nat)
  | invokeStart
  | writePidFile (pid : Nat)
  | registerExitObserver (pid : Nat)
  | accessCheck (ok : Bool)
  | readPidFile (pid : Nat)
  | consoleError (msg : String)
  | consoleLog (msg : String)
  | clearHandle
deriving Repr, DecidableEq

/-- Handle freshly produced by `spawn('node', options)` (line 140). -/
def workerHandle (pid : Nat) : Handle :=
  { pid := pid, exitCode := none, isKillHelper := false }

/-- Handle produced by `process = spawn('kill', [pid])` (line 156). -/
def killHandle (pid : Nat) : Handle :=
  { pid := pid, exitCode := none, isKillHelper := true }

/-- Argument list built by the `start` task (lines 134-138): start from `[]`,
push `--inspect=[::]:9229` when the debug flag is truthy, then push the
command. -/
def startOptions (debug : Bool) (command : String) : List String :=
  let options : List String := []
  let options := if debug then options ++ ["--inspect=[::]:9229"] else options
  options ++ [command]

/-- The `process.on('exit', ...)` callback registered by `start`
(lines 143-146): log a notice, then clear the shared handle to null. -/
def exitObserver (s : RunnerState) : RunnerState × List Action :=
  ({ s with process := none },
   [Action.consoleLog "*** Process exited ***", Action.clearHandle])

/-- The `start` task (lines 133-147): build the argument list, spawn the
worker via node, overwrite the shared handle and the PID file with the new
process, and register the exit observer.  `newPid` is the pid the operating
system assigns to the spawned process. -/
def startTask (cfg : Config) (newPid : Nat) (s : RunnerState) :
    RunnerState × List Action :=
  let options := startOptions cfg.debug cfg.command
  ({ s with process := some (workerHandle newPid), pidFile := some newPid },
   [Action.spawnNode options newPid,
    Action.writePidFile newPid,
    Action.registerExitObserver newPid])

/-- An invocation `gulp.start('start')`: the task-runner runs the `start`
task; the `invokeStart` marker records the invocation itself. -/
def gulpStartStart (cfg : Config) (newPid : Nat) (s : RunnerState) :
    RunnerState × List Action :=
  let r := startTask cfg newPid s
  (r.1, Action.invokeStart :: r.2)

/-- The `process.stdout.on('close', ...)` callback registered on the kill
helper process in `restart`'s no-handle branch (lines 157-159): its whole body
is `return gulp.start('start')`. -/
def killCloseCallback (cfg : Config) (newPid : Nat) (s : RunnerState) :
    RunnerState × List Action :=
  gulpStartStart cfg newPid s

/-- The `process.on('close', ...)` callback registered on the worker in
`restart`'s running branch (lines 167-170): set the shared handle to null,
then `gulp.start('start')`. -/
def workerCloseCallback (cfg : Config) (newPid : Nat) (s : RunnerState) :
    RunnerState × List Action :=
  let r := gulpStartStart cfg newPid { s with process := none }
  (r.1, Action.clearHandle :: r.2)

/-- State right after `process = spawn('kill', [pid])` in `restart`'s
no-handle branch (line 156): the shared handle now holds the kill helper. -/
def restartPidBranchIntermediate (s : RunnerState) (helperPid : Nat) :
    RunnerState :=
  { s with process := some (killHandle helperPid) }

/-- The `restart` task (lines 149-173), run to quiescence assuming each
awaited close event is eventually delivered (`closeObserved` marks the
delivery; everything after that marker happens inside the corresponding
callback).  `helperPid` is the pid assigned to the kill helper process when
one is spawned, `newPid` the pid assigned to the new worker. -/
def restart (cfg : Config) (s : RunnerState) (helperPid newPid : Nat) :
    RunnerState × List Action :=
  match s.process with
  | none =>
    match s.pidFile with
    | none =>
      (s, [Action.accessCheck false,
           Action.consoleError "No application running or PID error"])
    | some storedPid =>
      let s1 := restartPidBranchIntermediate s helperPid
      let r := killCloseCallback cfg newPid s1
      (r.1, [Action.accessCheck true,
             Action.readPidFile storedPid,
             Action.spawnKill storedPid helperPid,
             Action.closeObserved helperPid] ++ r.2)
  | some h =>
    if h.exitCode.isSome then
      gulpStartStart cfg newPid s
    else
      let r := workerCloseCallback cfg newPid s
      (r.1, Action.killSignal h.pid :: Action.closeObserved h.pid :: r.2)

/-- Number of `gulp.start('start')` invocations recorded in a trace. -/
def countInvokeStart : List Action → Nat
  | [] => 0
  | Action.invokeStart :: tr => countInvokeStart tr + 1
  | _ :: tr => countInvokeStart tr

/-- Whether an action spawns an OS process (worker or kill helper). -/
def isSpawnAction : Action → Bool
  | Action.spawnNode _ _ => true
  | Action.spawnKill _ _ => true
  | _ => false

/-- Whether an action spawns a worker process. -/
def isWorkerSpawn : Action → Bool
  | Action.spawnNode _ _ => true
  | _ => false

/-!
The `write-build-done` task (lines 116-122): `fs.writeFileSync(buildFile,
new Date())` inside `try`, with the `catch` reporting
`'Build file not created: ' + e` to the console.
-/

/-- Outcome of running a gulp task body: the build file's content afterwards,
the console-error lines produced, and whether the task body returned normally
(as opposed to letting an exception escape to the task runner). -/
structure TaskOutcome where
  buildFileContent : Option String
  consoleErrors : List String
  completedNormally : Bool
deriving Repr, DecidableEq

/-- Model of `fs.writeFileSync(buildFile, content)`: succeeds and yields the
new file content, or throws the error `errMsg`.  `fsOk` is the environment's
choice of whether the write succeeds. -/
def writeFileSyncResult (fsOk : Bool) (errMsg content : String) :
    Except String String :=
  if fsOk then Except.ok content else Except.error errMsg

/-- The `write-build-done` task body (lines 117-121): try the file write;
on success the file holds the timestamp; on failure the caught error is
reported as `'Build file not created: ' + e` and the task still returns
normally. -/
def writeBuildDoneTask (fsOk : Bool) (errMsg timestamp : String)
    (prior : Option String) : TaskOutcome :=
  match writeFileSyncResult fsOk errMsg timestamp with
  | Except.ok newContent =>
      { buildFileContent := some newContent,
        consoleErrors := [],
        completedNormally := true }
  | Except.error e =>
      { buildFileContent := prior,
        consoleErrors := ["Build file not created: " ++ e],
        completedNormally := true }

/-!
The `adaptPath` helper (lines 202-212), embedded over a model of JavaScript
values with JavaScript `typeof`, string truthiness and loose equality.
-/

/-- Model of the JavaScript values `adaptPath` can receive, one constructor
per possible `typeof` outcome (arrays and `null` are `typeof` "object"). -/
inductive JSValue where
  | strVal (s : String)
  | arrayVal (xs : List JSValue)
  | numberVal (n : Int)
  | boolVal (b : Bool)
  | undefinedVal
  | nullVal
  | objectVal
  | functionVal

/-- JavaScript `typeof`: note it yields the lowercase "string", and yields
"object" for arrays and for `null`. -/
def jsTypeof : JSValue → String
  | JSValue.strVal _ => "string"
  | JSValue.arrayVal _ => "object"
  | JSValue.numberVal _ => "number"
  | JSValue.boolVal _ => "boolean"
  | JSValue.undefinedVal => "undefined"
  | JSValue.nullVal => "object"
  | JSValue.objectVal => "object"
  | JSValue.functionVal => "function"

/-- JavaScript `!s` for a string `s`: ToBoolean of a string is true exactly
when the string is nonempty, and `!` negates it. -/
def jsNotString (s : String) : Bool :=
  !(s != "")

/-- JavaScript ToNumber on a string, restricted to the nonnegative decimal
numerals that can appear here; any other string (such as "Array") is NaN,
modelled as `none`. -/
def jsStringToNumber (s : String) : Option Int :=
  if s.toList ≠ [] ∧ s.toList.all Char.isDigit then
    some (Int.ofNat (s.toList.foldl (fun acc c => acc * 10 + (c.toNat - 48)) 0))
  else
    none

/-- JavaScript loose equality `b == s` between a boolean and a string: both
sides are converted to numbers, and NaN is unequal to everything. -/
def looseEqBoolString (b : Bool) (s : String) : Bool :=
  match jsStringToNumber s with
  | none => false
  | some n => (if b then (1 : Int) else 0) == n

/-- The `adaptPath` function (lines 202-212).  Line 203 tests
`typeof path == 'String'` (wrapping the value in a singleton array when it
holds); line 207 tests `!typeof path == 'Array'`, which by precedence is
`(!(typeof path)) == 'Array'`, and throws when it holds; otherwise the value
is returned. -/
def adaptPath (p0 : JSValue) : Except String JSValue :=
  let p := if jsTypeof p0 == "String" then JSValue.arrayVal [p0] else p0
  if looseEqBoolString (jsNotString (jsTypeof p)) "Array" then
    Except.error "Source directory: Array or String expected"
  else
    Except.ok p

/-- Temporal ordering property of a trace with respect to a worker pid: a
termination signal to that pid occurs, the corresponding close event is
observed strictly later, some worker spawn occurs strictly after that, and
every worker spawn in the trace is strictly after the observed close. -/
def killPrecedesEverySpawn (tr : List Action) (pid : Nat) : Prop :=
  ∃ i j : Nat, i < j ∧ tr[i]? = some (Action.killSignal pid) ∧
    tr[j]? = some (Action.closeObserved pid) ∧
    (∃ (k : Nat) (args : List String) (p : Nat),
      j < k ∧ tr[k]? = some (Action.spawnNode args p)) ∧
    (∀ (m : Nat) (args : List String) (p : Nat),
      tr[m]? = some (Action.spawnNode args p) → j < m)

/-!
Theorems settling the claims.
-/

/-- C2: for every prior content of the PID file (any `RunnerState` `s`),
after the `start` task completes the PID file holds exactly the pid of the
process spawned by that call, any prior content overwritten; the trace shows
the spawn of that very process and the PID-file write. -/
theorem start_overwrites_pid_file (cfg : Config) (newPid : Nat)
    (s : RunnerState) :
    (startTask cfg newPid s).1.pidFile = some newPid ∧
    Action.writePidFile newPid ∈ (startTask cfg newPid s).2 ∧
    Action.spawnNode (startOptions cfg.debug cfg.command) newPid ∈
      (startTask cfg newPid s).2 := by
  refine ⟨rfl, ?_, ?_⟩ <;> simp [startTask]

/-- C5: for every command string the spawned argument list is exactly
`[command]` when debug is false and exactly `["--inspect=[::]:9229",
command]` (debug flag first) when debug is true, and `start` passes exactly
this list to the node spawn. -/
theorem start_argument_list (command : String) (cfg : Config) (newPid : Nat)
    (s : RunnerState) :
    startOptions false command = [command] ∧
    startOptions true command = ["--inspect=[::]:9229", command] ∧
    Action.spawnNode (startOptions cfg.debug cfg.command) newPid ∈
      (startTask cfg newPid s).2 := by
  refine ⟨rfl, rfl, ?_⟩
  simp [startTask]

/-- C6: every invocation of `start` registers an exit observer on the process
it spawned, and that observer, when the process terminates, logs the notice
`*** Process exited ***` and clears the in-memory handle to absent
(`none`), from every state it may run in. -/
theorem start_registers_exit_observer (cfg : Config) (newPid : Nat)
    (s s2 : RunnerState) :
    Action.registerExitObserver newPid ∈ (startTask cfg newPid s).2 ∧
    (exitObserver s2).1.process = none ∧
    Action.consoleLog "*** Process exited ***" ∈ (exitObserver s2).2 := by
  refine ⟨?_, rfl, ?_⟩ <;> simp [startTask, exitObserver]

/-- C8: when the build-marker write fails (`fsOk = false`), the error is
caught inside `write-build-done`, reported to the console as
`Build file not created: ...`, the file keeps its prior content, and the task
still completes normally (the error does not propagate); a successful write
also completes normally. -/
theorem write_build_done_catches_error (errMsg timestamp : String)
    (prior : Option String) :
    (writeBuildDoneTask false errMsg timestamp prior).completedNormally
      = true ∧
    (writeBuildDoneTask false errMsg timestamp prior).consoleErrors
      = ["Build file not created: " ++ errMsg] ∧
    (writeBuildDoneTask false errMsg timestamp prior).buildFileContent
      = prior ∧
    (writeBuildDoneTask true errMsg timestamp prior).completedNormally
      = true :=
  ⟨rfl, rfl, rfl, rfl⟩

/-- C9: for every JavaScript value, `adaptPath` returns its argument
unchanged and never throws the "Source directory: Array or String expected"
error: `typeof` never yields `'String'` (capitalised), so the wrapping branch
is dead, and `(!typeof path) == 'Array'` compares a boolean against NaN, so
the throw branch is dead too. -/
theorem adaptPath_returns_input_unchanged (p : JSValue) :
    adaptPath p = Except.ok p := by
  have h1 : (jsTypeof p == "String") = false := by
    cases p <;> rfl
  have h2 : ∀ b, looseEqBoolString b "Array" = false := by
    intro b
    have h3 : jsStringToNumber "Array" = none := by decide
    simp [looseEqBoolString, h3]
  simp [adaptPath, h1, h2]

/-- C1: whenever a worker is running (handle present, exit status unset),
`restart` sends the termination signal to that worker strictly before any new
worker spawn, and every new spawn happens only after the close event observed
after the kill. -/
theorem restart_kill_before_spawn (cfg : Config) (s : RunnerState)
    (h : Handle) (helperPid newPid : Nat) (hproc : s.process = some h)
    (hexit : h.exitCode = none) :
    killPrecedesEverySpawn (restart cfg s helperPid newPid).2 h.pid := by
  have htr : (restart cfg s helperPid newPid).2 =
      [Action.killSignal h.pid, Action.closeObserved h.pid,
       Action.clearHandle, Action.invokeStart,
       Action.spawnNode (startOptions cfg.debug cfg.command) newPid,
       Action.writePidFile newPid, Action.registerExitObserver newPid] := by
    simp [restart, hproc, hexit, workerCloseCallback, gulpStartStart,
      startTask]
  simp only [killPrecedesEverySpawn, htr]
  refine ⟨0, 1, by omega, rfl, rfl,
    ⟨4, startOptions cfg.debug cfg.command, newPid, by omega, rfl⟩, ?_⟩
  intro m args p hm
  match m with
  | 0 | 1 | 2 | 3 => simp at hm
  | 4 => omega
  | 5 | 6 => simp at hm
  | n + 7 => simp at hm

/-- C1 witness: a concrete running worker (pid 42), restarted with helper pid
7 and fresh worker pid 43, debug off, command server.js. -/
theorem restart_kill_before_spawn_witness :
    killPrecedesEverySpawn
      (restart ⟨false, "server.js"⟩ ⟨some (workerHandle 42), some 42⟩ 7 43).2
      (workerHandle 42).pid :=
  restart_kill_before_spawn ⟨false, "server.js"⟩
    ⟨some (workerHandle 42), some 42⟩ (workerHandle 42) 7 43 rfl rfl

/-- C3: when no in-memory handle exists and the PID file is missing or fails
the accessibility check, `restart` reports the error to the console, spawns
no process, invokes `start` zero times, and leaves the state (PID file and
handle) unchanged. -/
theorem restart_missing_pid_file (cfg : Config) (s : RunnerState)
    (helperPid newPid : Nat) (hproc : s.process = none)
    (hpf : s.pidFile = none) :
    (restart cfg s helperPid newPid).1 = s ∧
    Action.consoleError "No application running or PID error" ∈
      (restart cfg s helperPid newPid).2 ∧
    (∀ a ∈ (restart cfg s helperPid newPid).2, isSpawnAction a = false) ∧
    countInvokeStart (restart cfg s helperPid newPid).2 = 0 := by
  have htr : restart cfg s helperPid newPid =
      (s, [Action.accessCheck false,
           Action.consoleError "No application running or PID error"]) := by
    simp [restart, hproc, hpf]
  rw [htr]
  refine ⟨rfl, by simp, ?_, rfl⟩
  intro a ha
  simp at ha
  rcases ha with rfl | rfl <;> rfl

/-- C3 witness: concrete state with no handle and no accessible PID file. -/
theorem restart_missing_pid_file_witness :
    (restart ⟨false, "server.js"⟩ ⟨none, none⟩ 7 43).1 = ⟨none, none⟩ ∧
    Action.consoleError "No application running or PID error" ∈
      (restart ⟨false, "server.js"⟩ ⟨none, none⟩ 7 43).2 ∧
    (∀ a ∈ (restart ⟨false, "server.js"⟩ ⟨none, none⟩ 7 43).2,
      isSpawnAction a = false) ∧
    countInvokeStart (restart ⟨false, "server.js"⟩ ⟨none, none⟩ 7 43).2
      = 0 :=
  restart_missing_pid_file ⟨false, "server.js"⟩ ⟨none, none⟩ 7 43 rfl rfl

/-- C4: when the in-memory handle is present but its exit status is already
set, `restart` immediately invokes `start` (the very first recorded effect is
the `start` invocation) and sends no termination signal and spawns no kill
helper. -/
theorem restart_dead_handle_starts_immediately (cfg : Config)
    (s : RunnerState) (h : Handle) (c : Int) (helperPid newPid : Nat)
    (hproc : s.process = some h) (hexit : h.exitCode = some c) :
    ((restart cfg s helperPid newPid).2).head? = some Action.invokeStart ∧
    (∀ p, Action.killSignal p ∉ (restart cfg s helperPid newPid).2) ∧
    (∀ t q, Action.spawnKill t q ∉ (restart cfg s helperPid newPid).2) := by
  have htr : (restart cfg s helperPid newPid).2 =
      [Action.invokeStart,
       Action.spawnNode (startOptions cfg.debug cfg.command) newPid,
       Action.writePidFile newPid, Action.registerExitObserver newPid] := by
    simp [restart, hproc, hexit, gulpStartStart, startTask]
  rw [htr]
  refine ⟨rfl, ?_, ?_⟩ <;> intros <;> simp

/-- C4 witness: concrete handle with exit code 0 already observed. -/
theorem restart_dead_handle_starts_immediately_witness :
    ((restart ⟨false, "server.js"⟩
        ⟨some ⟨42, some 0, false⟩, some 42⟩ 7 43).2).head?
      = some Action.invokeStart ∧
    (∀ p, Action.killSignal p ∉
      (restart ⟨false, "server.js"⟩
        ⟨some ⟨42, some 0, false⟩, some 42⟩ 7 43).2) ∧
    (∀ t q, Action.spawnKill t q ∉
      (restart ⟨false, "server.js"⟩
        ⟨some ⟨42, some 0, false⟩, some 42⟩ 7 43).2) :=
  restart_dead_handle_starts_immediately ⟨false, "server.js"⟩
    ⟨some ⟨42, some 0, false⟩, some 42⟩ ⟨42, some 0, false⟩ 0 7 43 rfl rfl

/-- C7: over all controller states, a single `restart` invocation records
exactly one `start` invocation, except in the branch where no handle exists
and the PID file is unreadable, where it records zero. -/
theorem restart_invokes_start_exactly_once (cfg : Config) (s : RunnerState)
    (helperPid newPid : Nat) :
    countInvokeStart (restart cfg s helperPid newPid).2 =
      if s.process = none ∧ s.pidFile = none then 0 else 1 := by
  obtain ⟨proc, pf⟩ := s
  cases proc with
  | none =>
    cases pf with
    | none => simp [restart, countInvokeStart]
    | some storedPid =>
      simp [restart, killCloseCallback, gulpStartStart, startTask,
        restartPidBranchIntermediate, countInvokeStart]
  | some h =>
    obtain ⟨hp, he, hk⟩ := h
    cases he with
    | none =>
      simp [restart, workerCloseCallback, gulpStartStart, startTask,
        countInvokeStart]
    | some c =>
      simp [restart, gulpStartStart, startTask, countInvokeStart]

/-- C10: in `restart`'s no-handle branch with a readable PID file, the shared
in-memory handle is assigned the kill helper process (not a worker); the
close callback of that branch never clears the handle to null, and the
handle next changes only when the `start` it invokes overwrites it with the
new worker's handle. -/
theorem restart_pid_branch_holds_kill_handle (cfg : Config) (s : RunnerState)
    (storedPid helperPid newPid : Nat) (hproc : s.process = none)
    (hpf : s.pidFile = some storedPid) :
    (restartPidBranchIntermediate s helperPid).process
      = some (killHandle helperPid) ∧
    (killHandle helperPid).isKillHelper = true ∧
    Action.clearHandle ∉
      (killCloseCallback cfg newPid
        (restartPidBranchIntermediate s helperPid)).2 ∧
    (killCloseCallback cfg newPid
        (restartPidBranchIntermediate s helperPid)).1.process
      = some (workerHandle newPid) ∧
    (workerHandle newPid).isKillHelper = false ∧
    (restart cfg s helperPid newPid).1
      = (killCloseCallback cfg newPid
          (restartPidBranchIntermediate s helperPid)).1 := by
  refine ⟨rfl, rfl, ?_, rfl, rfl, ?_⟩
  · simp [killCloseCallback, gulpStartStart, startTask]
  · simp [restart, hproc, hpf]

/-- C10 witness: concrete state with no handle and PID file holding 42. -/
theorem restart_pid_branch_holds_kill_handle_witness :
    (restartPidBranchIntermediate ⟨none, some 42⟩ 7).process
      = some (killHandle 7) ∧
    (killHandle 7).isKillHelper = true ∧
    Action.clearHandle ∉
      (killCloseCallback ⟨false, "server.js"⟩ 43
        (restartPidBranchIntermediate ⟨none, some 42⟩ 7)).2 ∧
    (killCloseCallback ⟨false, "server.js"⟩ 43
        (restartPidBranchIntermediate ⟨none, some 42⟩ 7)).1.process
      = some (workerHandle 43) ∧
    (workerHandle 43).isKillHelper = false ∧
    (restart ⟨false, "server.js"⟩ ⟨none, some 42⟩ 7 43).1
      = (killCloseCallback ⟨false, "server.js"⟩ 43
          (restartPidBranchIntermediate ⟨none, some 42⟩ 7)).1 :=
  restart_pid_branch_holds_kill_handle ⟨false, "server.js"⟩ ⟨none, some 42⟩
    42 7 43 rfl rfl

end GulpTasks
